import Mathlib

/-!
Shallow embedding of the visible slice of GElib: the `SO3bipartView` adapter
(src/objects/SO3n/SO3bipartView.hpp), the pybind11 binding registrations
(src/python/GElib_py.cpp and src/python/bindings/SO3part_py.cpp), and the
test driver (src/objects/SO3/tests/testSO3vecB.cpp).

C++ `int` division truncates toward zero; it is embedded as `Int.tdiv`.
A tensor *view* carries only a data-pointer address, dimension extents,
stride values and a device id; it holds no element storage of its own.
-/

namespace GElib

/-- Embedding of `cnine::BatchedTensorView<complex<RTYPE>>` as used by
`SO3bipartView` over a 4-dimensional tensor.  Modelled from the spec: the
class itself lives in the external cnine library; per the spec a view is a
non-owning handle made of a data pointer (`arr`, embedded as an address),
the four dimension extents `dims[0..3]`, the four strides `strides[0..3]`
(counted in complex elements), and a device id. -/
structure BatchedTensorView where
  arr : Nat
  dim0 : Int
  dim1 : Int
  dim2 : Int
  dim3 : Int
  stride0 : Int
  stride1 : Int
  stride2 : Int
  stride3 : Int
  dev : Int
deriving DecidableEq

/-- Embedding of `GElib::SO3bipartView<RTYPE>` (SO3bipartView.hpp lines
42-118).  The C++ class publicly inherits from `BatchedTensorView` and
declares no data member of its own, so the embedding is a structure whose
only field is the inherited tensor view. -/
structure SO3bipartView where
  toTensorView : BatchedTensorView
deriving DecidableEq

/-- Embedding of the converting constructor
`SO3bipartView(const TensorView& x): TensorView(x){}` (lines 61-62): the
base-class copy constructor copies the view handle (pointer, dims, strides,
device) and nothing else. -/
def SO3bipartView.ofTensorView (x : BatchedTensorView) : SO3bipartView :=
  ⟨x⟩

/-- Embedding of `int getl1() const{ return (dims[1]-1)/2; }` (lines 76-78);
C++ `int` division is truncation toward zero, i.e. `Int.tdiv`. -/
def SO3bipartView.getl1 (v : SO3bipartView) : Int :=
  Int.tdiv (v.toTensorView.dim1 - 1) 2

/-- Embedding of `int getl2() const{ return (dims[2]-1)/2; }` (lines 80-82). -/
def SO3bipartView.getl2 (v : SO3bipartView) : Int :=
  Int.tdiv (v.toTensorView.dim2 - 1) 2

/-- Embedding of `int getn() const{ return dims[3]; }` (lines 84-86). -/
def SO3bipartView.getn (v : SO3bipartView) : Int :=
  v.toTensorView.dim3

/-- Embedding of the inherited `device()` accessor. -/
def SO3bipartView.device (v : SO3bipartView) : Int :=
  v.toTensorView.dev

/-- Embedding of `cnine::Ctensor4_view`: a 4-dimensional view over the real
scalars underlying a complex tensor.  Modelled from the spec: the class
lives in the external cnine library; its constructor as invoked in
SO3bipartView.hpp takes a real-typed pointer, four dims, four strides, a
complex-part offset and a device id. -/
structure Ctensor4_view where
  arr : Nat
  n0 : Int
  n1 : Int
  n2 : Int
  n3 : Int
  s0 : Int
  s1 : Int
  s2 : Int
  s3 : Int
  coffs : Int
  dev : Int
deriving DecidableEq

/-- Embedding of `operator cnine::Ctensor4_view()` (SO3bipartView.hpp lines
67-70): `Ctensor4_view(arr.ptr_as<RTYPE>(), {dims[0],dims[1],dims[2],dims[3]},
{2*strides[0],2*strides[1],2*strides[2],2*strides[3]}, 1, device())`.
`ptr_as` reinterprets the pointer without changing its address. -/
def SO3bipartView.toCtensor4_view (v : SO3bipartView) : Ctensor4_view :=
  ⟨v.toTensorView.arr,
   v.toTensorView.dim0, v.toTensorView.dim1, v.toTensorView.dim2, v.toTensorView.dim3,
   2 * v.toTensorView.stride0, 2 * v.toTensorView.stride1,
   2 * v.toTensorView.stride2, 2 * v.toTensorView.stride3,
   1, v.toTensorView.dev⟩

/-- Embedding of `GElib::SO3partView<RTYPE>`.  Modelled from the spec:
SO3partView.hpp is not in this excerpt; per the spec an SO3part view is a
3-dimensional batched complex tensor view (batch, m-index of the degree-l
irreducible block, channel), again a non-owning handle of pointer, dims,
strides and device. -/
structure SO3partView where
  arr : Nat
  dim0 : Int
  dim1 : Int
  dim2 : Int
  stride0 : Int
  stride1 : Int
  stride2 : Int
  dev : Int
deriving DecidableEq

/-- Embedding of `cnine::Ctensor3_view`, the 3-dimensional analogue of
`Ctensor4_view`.  Modelled from the spec: the class lives in the external
cnine library. -/
structure Ctensor3_view where
  arr : Nat
  n0 : Int
  n1 : Int
  n2 : Int
  s0 : Int
  s1 : Int
  s2 : Int
  coffs : Int
  dev : Int
deriving DecidableEq

/-- Embedding of the conversion `cnine::Ctensor3_view(r)` applied to an
`SO3partView`.  Modelled from the spec: the conversion is defined outside
this excerpt; per the spec it is the 3-dimensional analogue of the
SO3bipartView conversion of lines 67-70 (same pointer and dims, strides
doubled to count real scalars, complex-part offset 1, device passed
through). -/
def SO3partView.toCtensor3_view (r : SO3partView) : Ctensor3_view :=
  ⟨r.arr, r.dim0, r.dim1, r.dim2,
   2 * r.stride0, 2 * r.stride1, 2 * r.stride2, 1, r.dev⟩

/-- A single invocation of one of the two external CG-transform kernels,
recorded with the exact arguments passed at the call site.
`addCGtransform` stands for `SO3part_addCGtransformFn()(dest, src, offs)`
and `addCGtransformBack` for `SO3part_addCGtransform_backFn()(dest, src,
offs)`; the kernels themselves are external to this excerpt, so an
operation that only delegates is embedded as the kernel call it emits. -/
inductive KernelCall where
  | addCGtransform (dest : Ctensor3_view) (src : Ctensor4_view) (offs : Int)
  | addCGtransformBack (dest : Ctensor4_view) (src : Ctensor3_view) (offs : Int)
deriving DecidableEq

/-- Embedding of `add_CGtransform_to` (SO3bipartView.hpp lines 97-99):
`SO3part_addCGtransformFn()(cnine::Ctensor3_view(r), cnine::Ctensor4_view(*this), offs)`. -/
def SO3bipartView.add_CGtransform_to (v : SO3bipartView) (r : SO3partView)
    (offs : Int) : KernelCall :=
  KernelCall.addCGtransform (SO3partView.toCtensor3_view r)
    (SO3bipartView.toCtensor4_view v) offs

/-- Embedding of `add_CGtransform_back` (SO3bipartView.hpp lines 101-103):
`SO3part_addCGtransform_backFn()(cnine::Ctensor4_view(*this), cnine::Ctensor3_view(r), offs)`. -/
def SO3bipartView.add_CGtransform_back (v : SO3bipartView) (r : SO3partView)
    (offs : Int) : KernelCall :=
  KernelCall.addCGtransformBack (SO3bipartView.toCtensor4_view v)
    (SO3partView.toCtensor3_view r) offs

/-- Embedding of `at::Tensor` as an identifier.  Modelled from the spec: the
torch tensor type is external; the bindings only forward such a value. -/
structure ATTensor where
  id : Nat
deriving DecidableEq

/-- Symbolic result of a native `SO3part<float>` factory call.  Modelled
from the spec: SO3part.hpp is not in this excerpt; each constructor records
which native function produced the value and with which arguments, so a
binding that forwards unchanged is one whose result is exactly the
constructor applied to the binding arguments. -/
inductive SO3partF where
  | raw (b l n dev : Int)
  | zero (b l n dev : Int)
  | gaussian (b l n dev : Int)
  | fromTensor (t : ATTensor)
deriving DecidableEq

/-- Symbolic result of the native free function `CGproduct(x, y, l)` on two
SO3parts.  Modelled from the spec: the native function is external. -/
inductive NativeCGCall where
  | cgproduct (x y : SO3partF) (maxl : Int)
deriving DecidableEq

/-- Embedding of the `raw` binding lambda (SO3part_py.cpp lines 17-18):
`[](const int b, const int l, const int n, const int dev){ return
SO3part<float>::raw(b,l,n,dev); }`. -/
def SO3part_binding_raw (b l n dev : Int) : SO3partF :=
  SO3partF.raw b l n dev

/-- Embedding of the `zero` binding lambda (SO3part_py.cpp lines 19-20). -/
def SO3part_binding_zero (b l n dev : Int) : SO3partF :=
  SO3partF.zero b l n dev

/-- Embedding of the `gaussian` binding lambda (SO3part_py.cpp lines 21-22). -/
def SO3part_binding_gaussian (b l n dev : Int) : SO3partF :=
  SO3partF.gaussian b l n dev

/-- Embedding of the tensor constructor binding
`.def(pybind11::init<const at::Tensor&>())` (SO3part_py.cpp line 15): the
argument is handed to the native converting constructor unchanged. -/
def SO3part_binding_init_tensor (t : ATTensor) : SO3partF :=
  SO3partF.fromTensor t

/-- Embedding of the module-level `CGproduct` lambda (SO3part_py.cpp lines
107-108): `[](const SO3part<float>& x, const SO3part<float>& y, const int l){
return CGproduct(x,y,l); }`. -/
def CGproduct_binding (x y : SO3partF) (l : Int) : NativeCGCall :=
  NativeCGCall.cgproduct x y l

/-- Embedding of the `__len__` binding lambda (SO3part_py.cpp line 49):
`[](const SO3part<float>& obj){ return 1; }`. -/
def SO3part_len (obj : SO3partF) : Int :=
  1

/-- Modelled from the spec: SO3type.hpp is not in this excerpt; per the spec
an `SO3type` is "an ordered sequence of non-negative integers, one per
represented degree", so it is embedded as a list of naturals. -/
abbrev SO3type := List Nat

/-- Modelled from the spec: `SO3type::size`, the length of the sequence,
bound as `__len__` (GElib_py.cpp line 51). -/
def SO3type.size (t : SO3type) : Nat :=
  List.length t

/-- Modelled from the spec: `SO3type::maxl`, the highest represented degree
(GElib_py.cpp line 52); with one multiplicity per degree starting at 0 this
is the length minus one. -/
def SO3type.maxl (t : SO3type) : Int :=
  (List.length t : Int) - 1

/-- Modelled from the spec: `SO3type::operator()`, elementwise read access,
bound as `__getitem__` (GElib_py.cpp line 53). -/
def SO3type.getItem (t : SO3type) (i : Nat) : Nat :=
  List.getD t i 0

/-- Modelled from the spec: `SO3type::set`, explicit index assignment, bound
as `__setitem__` (GElib_py.cpp line 54); per the spec this is the one
operation allowed to change the length, here by growing the sequence when
the index is past the end. -/
def SO3type.setItem (t : SO3type) (i : Nat) (x : Nat) : SO3type :=
  if i < List.length t then List.set t i x
  else List.set (t ++ List.replicate (i + 1 - List.length t) 0) i x

/-- Modelled from the spec: `SO3type::str`, bound as `str`/`__str__`/
`__repr__` (GElib_py.cpp lines 57-59), a pure rendering of the sequence. -/
def SO3type.strOf (t : SO3type) : String :=
  toString t

/-- One invocation of an exposed `SO3type` method after construction, as
registered in GElib_py.cpp lines 51-59. -/
inductive SO3typeOp where
  | len
  | maxlOp
  | getItem (i : Nat)
  | setItem (i : Nat) (x : Nat)
  | strOp
  | reprOp
deriving DecidableEq

/-- Value returned to Python by an `SO3type` method call. -/
inductive SO3typeAns where
  | natAns (n : Nat)
  | intAns (z : Int)
  | strAns (s : String)
  | unitAns
deriving DecidableEq

/-- Tells the one explicit index-assignment operation apart from the rest. -/
def SO3typeOp.isSetItem : SO3typeOp → Bool
  | .setItem _ _ => true
  | _ => false

/-- State-transformer semantics of each exposed `SO3type` method: the method
applied to the object yields the object afterwards and the returned value.
All methods but `set` are const in the C++ registration, so they leave the
object as it was. -/
def SO3typeOp.run : SO3typeOp → SO3type → SO3type × SO3typeAns
  | .len, t => (t, .natAns (SO3type.size t))
  | .maxlOp, t => (t, .intAns (SO3type.maxl t))
  | .getItem i, t => (t, .natAns (SO3type.getItem t i))
  | .setItem i x, t => (SO3type.setItem t i x, .unitAns)
  | .strOp, t => (t, .strAns (SO3type.strOf t))
  | .reprOp, t => (t, .strAns (SO3type.strOf t))

/-- Symbolic `SO3vecB` value as built by the test driver.  Modelled from the
spec: SO3vecB.hpp is not in this excerpt; a value records which API call
produced it — a gaussian random draw (batch, SO3type, draw number, on the
default device), a CG product of two values with a maxl cap, or a transfer
of a value to a device. -/
inductive SO3vecBVal where
  | gaussianV (b : Nat) (tau : SO3type) (draw : Nat)
  | cgproductV (x y : SO3vecBVal) (maxl : Int)
  | toDeviceV (x : SO3vecBVal) (dev : Int)
deriving DecidableEq

/-- Device a symbolic value lives on: gaussian draws are made on the default
device 0, `to_device` moves to the given device, and a CG product is
computed where its first operand lives. -/
def SO3vecBVal.deviceOf : SO3vecBVal → Int
  | .gaussianV _ _ _ => 0
  | .cgproductV x _ _ => SO3vecBVal.deviceOf x
  | .toDeviceV _ d => d

/-- True when `sub` occurs inside `v`, i.e. `v` was computed from `sub`. -/
def SO3vecBVal.usesVal (sub : SO3vecBVal) : SO3vecBVal → Bool
  | SO3vecBVal.gaussianV b tau d =>
      decide (sub = SO3vecBVal.gaussianV b tau d)
  | SO3vecBVal.cgproductV x y m =>
      decide (sub = SO3vecBVal.cgproductV x y m)
        || SO3vecBVal.usesVal sub x || SO3vecBVal.usesVal sub y
  | SO3vecBVal.toDeviceV x d =>
      decide (sub = SO3vecBVal.toDeviceV x d) || SO3vecBVal.usesVal sub x

/-- One statement-level step of the test driver `main`
(testSO3vecB.cpp lines 12-39): the session object's construction and
destruction, the binding of a new `SO3vecB` value to a local, and the
printing of a value; the source contains no other kind of statement, in
particular no assertion or comparison of result values. -/
inductive TestStep where
  | sessionCtor
  | constructStep (v : SO3vecBVal)
  | printStep (v : SO3vecBVal)
  | sessionDtor
deriving DecidableEq

/-- Value bound to `u` (line 19): `SO3vecB::gaussian(1,tau)` with
`tau = SO3type({2,2,2})` (line 17); first random draw. -/
def test_u : SO3vecBVal := SO3vecBVal.gaussianV 1 [2, 2, 2] 0

/-- Value bound to `v` (line 20): second independent gaussian draw of the
same batch and type. -/
def test_v : SO3vecBVal := SO3vecBVal.gaussianV 1 [2, 2, 2] 1

/-- Value bound to `w` (line 24): `u.CGproduct(v,2)`. -/
def test_w : SO3vecBVal := SO3vecBVal.cgproductV test_u test_v 2

/-- Value bound to `ug` (line 29): `u.to_device(1)`. -/
def test_ug : SO3vecBVal := SO3vecBVal.toDeviceV test_u 1

/-- Value bound to `vg` (line 30): `v.to_device(1)`. -/
def test_vg : SO3vecBVal := SO3vecBVal.toDeviceV test_v 1

/-- Value bound to `wg` (line 35): `ug.CGproduct(vg,2)`. -/
def test_wg : SO3vecBVal := SO3vecBVal.cgproductV test_ug test_vg 2

/-- Statement-by-statement trace of `main` in testSO3vecB.cpp lines 12-39:
the local `GElibSession session;` is constructed first and, by C++
automatic-storage semantics, destroyed when `main` returns; in between the
program only builds and prints values. -/
def testSO3vecB_main : List TestStep :=
  [TestStep.sessionCtor,
   TestStep.constructStep test_u,
   TestStep.constructStep test_v,
   TestStep.printStep test_u,
   TestStep.printStep test_v,
   TestStep.constructStep test_w,
   TestStep.printStep test_w,
   TestStep.constructStep test_ug,
   TestStep.constructStep test_vg,
   TestStep.printStep test_ug,
   TestStep.printStep test_vg,
   TestStep.constructStep test_wg,
   TestStep.printStep test_wg,
   TestStep.sessionDtor]

/-- The values the test driver constructs, in order. -/
def testSO3vecB_constructed : List SO3vecBVal :=
  List.filterMap
    (fun s => match s with
      | TestStep.constructStep v => some v
      | _ => none)
    testSO3vecB_main

/-- A namespace-scope declaration of the python extension translation unit. -/
inductive GlobalDecl where
  | gelibSession (declName : String)
deriving DecidableEq

/-- The namespace-scope object declarations of GElib_py.cpp: the single
`GElib::GElibSession session;` at line 29 and nothing else. -/
def GElib_py_globals : List GlobalDecl :=
  [GlobalDecl.gelibSession "session"]

/-- One event in the lifetime of the loaded python extension module. -/
inductive ModuleEvent where
  | sessionCtor
  | boundOp (opId : Nat)
  | sessionDtor
deriving DecidableEq

/-- Lifetime trace of the python extension module for an arbitrary run of
bound operations.  Modelled from the spec: by C++ static-storage semantics
the one global `GElib::GElibSession session;` (GElib_py.cpp line 29) is
constructed when the shared object is loaded — before any bound operation
can run — and destroyed only at teardown, after the last of them. -/
def moduleLifetime (ops : List Nat) : List ModuleEvent :=
  ModuleEvent.sessionCtor :: (List.map ModuleEvent.boundOp ops ++ [ModuleEvent.sessionDtor])

/-- Truncating division of `2*l` by 2 recovers `l`; the odd-extent round
trip of the degree accessors. -/
lemma tdiv_odd_extent (l : Nat) : Int.tdiv (2 * (l : Int) + 1 - 1) 2 = l := by
  have h : 2 * (l : Int) + 1 - 1 = 2 * l := by ring
  rw [h, Int.tdiv_eq_ediv (by positivity) (by norm_num)]
  omega

/-- Truncating division of `2*l+1` by 2 also gives `l`; the even-extent
collision of the degree accessors. -/
lemma tdiv_even_extent (l : Nat) : Int.tdiv (2 * (l : Int) + 2 - 1) 2 = l := by
  have h : 2 * (l : Int) + 2 - 1 = 2 * l + 1 := by ring
  rw [h, Int.tdiv_eq_ediv (by positivity) (by norm_num)]
  omega

/-- C1: for every `SO3bipartView` over a 4-dimensional tensor, `getl1()`
returns `(dims[1]-1)/2` and `getl2()` returns `(dims[2]-1)/2` (C++
truncating division), and the view stores no degree field of its own: it is
in bijection with its underlying tensor view, so nothing beyond the tensor
shape determines the degrees. -/
theorem C1_degrees_derived_from_shape :
    (∀ v : SO3bipartView,
        SO3bipartView.getl1 v = Int.tdiv (v.toTensorView.dim1 - 1) 2 ∧
        SO3bipartView.getl2 v = Int.tdiv (v.toTensorView.dim2 - 1) 2) ∧
    Function.Bijective SO3bipartView.ofTensorView := by
  refine ⟨fun v => ⟨rfl, rfl⟩, fun a b h => ?_, fun v => ⟨v.toTensorView, rfl⟩⟩
  exact congrArg SO3bipartView.toTensorView h

/-- C2: both CG-transform operations are pure delegations:
`add_CGtransform_to(r, offs)` emits exactly one call to the external
`SO3part_addCGtransformFn` kernel with destination `r` as a 3-dimensional
view and source `*this` as a 4-dimensional view, and
`add_CGtransform_back(r, offs)` emits exactly one call to
`SO3part_addCGtransform_backFn` with the argument order reversed. -/
theorem C2_cgtransform_pure_delegation :
    ∀ (v : SO3bipartView) (r : SO3partView) (offs : Int),
      SO3bipartView.add_CGtransform_to v r offs =
        KernelCall.addCGtransform (SO3partView.toCtensor3_view r)
          (SO3bipartView.toCtensor4_view v) offs ∧
      SO3bipartView.add_CGtransform_back v r offs =
        KernelCall.addCGtransformBack (SO3bipartView.toCtensor4_view v)
          (SO3partView.toCtensor3_view r) offs :=
  fun _ _ _ => ⟨rfl, rfl⟩

/-- C3: every registered binding — the `raw`/`zero`/`gaussian` SO3part
constructors, the tensor constructor and the module-level `CGproduct`
lambda — passes its arguments unchanged to the corresponding native
function and returns its result; each binding is total, with no
precondition check or error branch of its own. -/
theorem C3_bindings_forward_unchanged :
    (∀ b l n dev : Int,
        SO3part_binding_raw b l n dev = SO3partF.raw b l n dev ∧
        SO3part_binding_zero b l n dev = SO3partF.zero b l n dev ∧
        SO3part_binding_gaussian b l n dev = SO3partF.gaussian b l n dev) ∧
    (∀ t : ATTensor, SO3part_binding_init_tensor t = SO3partF.fromTensor t) ∧
    (∀ (x y : SO3partF) (l : Int),
        CGproduct_binding x y l = NativeCGCall.cgproduct x y l) :=
  ⟨fun _ _ _ _ => ⟨rfl, rfl, rfl⟩, fun _ => rfl, fun _ _ _ => rfl⟩

/-- C4: every entry of an `SO3type` is a non-negative integer, and every
exposed operation other than explicit index assignment (`__setitem__`/`set`)
leaves the length (`__len__`/`size`) unchanged. -/
theorem C4_entries_nonneg_length_stable (op : SO3typeOp) (t : SO3type)
    (h : SO3typeOp.isSetItem op = false) :
    (∀ m ∈ (SO3typeOp.run op t).1, 0 ≤ (m : Int)) ∧
    SO3type.size (SO3typeOp.run op t).1 = SO3type.size t := by
  refine ⟨fun m _ => Int.natCast_nonneg m, ?_⟩
  cases op <;> first
    | rfl
    | simp [SO3typeOp.isSetItem] at h

/-- C4 witness: the theorem instantiated at `__getitem__(1)` on the
SO3type (2,2,2). -/
theorem C4_witness :
    (∀ m ∈ (SO3typeOp.run (SO3typeOp.getItem 1) [2, 2, 2]).1, 0 ≤ (m : Int)) ∧
    SO3type.size (SO3typeOp.run (SO3typeOp.getItem 1) [2, 2, 2]).1 =
      SO3type.size [2, 2, 2] :=
  C4_entries_nonneg_length_stable (SO3typeOp.getItem 1) [2, 2, 2] rfl

/-- C5: constructing an `SO3bipartView` from a `BatchedTensorView` is
non-owning aliasing: the new view carries the same data-pointer address,
the same dims and the same strides as the source, element data is not
touched (a view holds none), and the source is unchanged (the constructor
is a pure function of it). -/
theorem C5_construction_aliases_source :
    ∀ x : BatchedTensorView,
      (SO3bipartView.ofTensorView x).toTensorView = x ∧
      (SO3bipartView.ofTensorView x).toTensorView.arr = x.arr ∧
      (SO3bipartView.ofTensorView x).toTensorView.dim0 = x.dim0 ∧
      (SO3bipartView.ofTensorView x).toTensorView.dim1 = x.dim1 ∧
      (SO3bipartView.ofTensorView x).toTensorView.dim2 = x.dim2 ∧
      (SO3bipartView.ofTensorView x).toTensorView.dim3 = x.dim3 ∧
      (SO3bipartView.ofTensorView x).toTensorView.stride0 = x.stride0 ∧
      (SO3bipartView.ofTensorView x).toTensorView.stride1 = x.stride1 ∧
      (SO3bipartView.ofTensorView x).toTensorView.stride2 = x.stride2 ∧
      (SO3bipartView.ofTensorView x).toTensorView.stride3 = x.stride3 :=
  fun _ => ⟨rfl, rfl, rfl, rfl, rfl, rfl, rfl, rfl, rfl, rfl⟩

/-- C6: the test driver constructs, in order, two independent gaussian
`SO3vecB` values of the same SO3type (2,2,2) with batch 1, their CGproduct
with maxl=2 on the default device 0, the transfers of both inputs to device
1, and the same CGproduct with maxl=2 there; the products `w` and `wg` are
never consumed by a later computation, so no result value is checked. -/
theorem C6_test_driver_steps :
    testSO3vecB_constructed = [test_u, test_v, test_w, test_ug, test_vg, test_wg] ∧
    test_u = SO3vecBVal.gaussianV 1 [2, 2, 2] 0 ∧
    test_v = SO3vecBVal.gaussianV 1 [2, 2, 2] 1 ∧
    test_u ≠ test_v ∧
    test_w = SO3vecBVal.cgproductV test_u test_v 2 ∧
    SO3vecBVal.deviceOf test_w = 0 ∧
    test_ug = SO3vecBVal.toDeviceV test_u 1 ∧
    test_vg = SO3vecBVal.toDeviceV test_v 1 ∧
    test_wg = SO3vecBVal.cgproductV test_ug test_vg 2 ∧
    SO3vecBVal.deviceOf test_wg = 1 ∧
    SO3vecBVal.usesVal test_w test_wg = false ∧
    SO3vecBVal.usesVal test_w test_ug = false ∧
    SO3vecBVal.usesVal test_w test_vg = false := by
  decide

/-- C7: over the lifetime of the python extension module — and of the test
driver's `main` — exactly one `GElibSession` construction occurs, it is the
very first event (before any bound operation), and the matching destruction
is the very last; the translation unit declares exactly one session global. -/
theorem C7_single_session_lifecycle (ops : List Nat) :
    (moduleLifetime ops).count ModuleEvent.sessionCtor = 1 ∧
    (moduleLifetime ops).head? = some ModuleEvent.sessionCtor ∧
    (moduleLifetime ops).count ModuleEvent.sessionDtor = 1 ∧
    (moduleLifetime ops).getLast? = some ModuleEvent.sessionDtor ∧
    GElib_py_globals.count (GlobalDecl.gelibSession "session") = 1 ∧
    testSO3vecB_main.count TestStep.sessionCtor = 1 ∧
    testSO3vecB_main.head? = some TestStep.sessionCtor ∧
    testSO3vecB_main.count TestStep.sessionDtor = 1 ∧
    testSO3vecB_main.getLast? = some TestStep.sessionDtor := by
  refine ⟨?_, rfl, ?_, ?_, by decide, by decide, rfl, by decide, by decide⟩
  · simp [moduleLifetime, List.count_cons, List.count_append, List.count_eq_zero,
      List.mem_map]
  · simp [moduleLifetime, List.count_cons, List.count_append, List.count_eq_zero,
      List.mem_map]
  · rw [moduleLifetime, ← List.cons_append]
    exact List.getLast?_concat _

/-- C8: the shape-to-degree map is not injective: with the truncating
division `(dims[1]-1)/2`, a view of odd extent `2*l+1` and a view of even
extent `2*l+2` in dimension 1 report the same degree `l` instead of the
even extent failing, and likewise for `getl2` on dimension 2. -/
theorem C8_shape_to_degree_not_injective (l : Nat) (v w : SO3bipartView)
    (h1 : v.toTensorView.dim1 = 2 * (l : Int) + 1)
    (h2 : w.toTensorView.dim1 = 2 * (l : Int) + 2)
    (h3 : v.toTensorView.dim2 = 2 * (l : Int) + 1)
    (h4 : w.toTensorView.dim2 = 2 * (l : Int) + 2) :
    SO3bipartView.getl1 v = l ∧ SO3bipartView.getl1 w = l ∧
    SO3bipartView.getl2 v = l ∧ SO3bipartView.getl2 w = l ∧
    v.toTensorView.dim1 ≠ w.toTensorView.dim1 := by
  refine ⟨?_, ?_, ?_, ?_, ?_⟩
  · rw [SO3bipartView.getl1, h1]; exact tdiv_odd_extent l
  · rw [SO3bipartView.getl1, h2]; exact tdiv_even_extent l
  · rw [SO3bipartView.getl2, h3]; exact tdiv_odd_extent l
  · rw [SO3bipartView.getl2, h4]; exact tdiv_even_extent l
  · rw [h1, h2]; omega

/-- C8 witness: a view with dims (1,3,3,1) and a view with dims (1,4,4,1)
both report degrees l1 = l2 = 1 although their extents differ. -/
theorem C8_witness :
    SO3bipartView.getl1 (SO3bipartView.ofTensorView ⟨0, 1, 3, 3, 1, 9, 3, 1, 1, 0⟩) = 1 ∧
    SO3bipartView.getl1 (SO3bipartView.ofTensorView ⟨0, 1, 4, 4, 1, 16, 4, 1, 1, 0⟩) = 1 ∧
    SO3bipartView.getl2 (SO3bipartView.ofTensorView ⟨0, 1, 3, 3, 1, 9, 3, 1, 1, 0⟩) = 1 ∧
    SO3bipartView.getl2 (SO3bipartView.ofTensorView ⟨0, 1, 4, 4, 1, 16, 4, 1, 1, 0⟩) = 1 ∧
    (SO3bipartView.ofTensorView ⟨0, 1, 3, 3, 1, 9, 3, 1, 1, 0⟩).toTensorView.dim1 ≠
      (SO3bipartView.ofTensorView ⟨0, 1, 4, 4, 1, 16, 4, 1, 1, 0⟩).toTensorView.dim1 :=
  C8_shape_to_degree_not_injective 1
    (SO3bipartView.ofTensorView ⟨0, 1, 3, 3, 1, 9, 3, 1, 1, 0⟩)
    (SO3bipartView.ofTensorView ⟨0, 1, 4, 4, 1, 16, 4, 1, 1, 0⟩)
    (by decide) (by decide) (by decide) (by decide)

/-- C9: converting an `SO3bipartView` to a `Ctensor4_view` keeps all four
dimension extents and the data-pointer address, multiplies each stride by
exactly 2 (each complex element seen as two adjacent reals), and passes the
device id through unchanged. -/
theorem C9_ctensor4_conversion_shape :
    ∀ v : SO3bipartView,
      (SO3bipartView.toCtensor4_view v).arr = v.toTensorView.arr ∧
      (SO3bipartView.toCtensor4_view v).n0 = v.toTensorView.dim0 ∧
      (SO3bipartView.toCtensor4_view v).n1 = v.toTensorView.dim1 ∧
      (SO3bipartView.toCtensor4_view v).n2 = v.toTensorView.dim2 ∧
      (SO3bipartView.toCtensor4_view v).n3 = v.toTensorView.dim3 ∧
      (SO3bipartView.toCtensor4_view v).s0 = 2 * v.toTensorView.stride0 ∧
      (SO3bipartView.toCtensor4_view v).s1 = 2 * v.toTensorView.stride1 ∧
      (SO3bipartView.toCtensor4_view v).s2 = 2 * v.toTensorView.stride2 ∧
      (SO3bipartView.toCtensor4_view v).s3 = 2 * v.toTensorView.stride3 ∧
      (SO3bipartView.toCtensor4_view v).dev = v.toTensorView.dev :=
  fun _ => ⟨rfl, rfl, rfl, rfl, rfl, rfl, rfl, rfl, rfl, rfl⟩

/-- C10: the python `__len__` binding of `SO3part` returns the constant 1
for every object, whatever its batch size, degree or channel count. -/
theorem C10_len_always_one :
    (∀ x : SO3partF, SO3part_len x = 1) ∧
    (∀ x y : SO3partF, SO3part_len x = SO3part_len y) :=
  ⟨fun _ => rfl, fun _ _ => rfl⟩

end GElib
